import Mathlib

/-!
A shallow embedding of the Wi-Fi intrusion detection data-preparation toolkit
(`data_collector.py` and `featureEngineeringPipeline.py`), with theorems
settling the specification's claims about it.

Numeric model: pandas/numpy float columns are modelled as exact rationals
extended with the IEEE special values `+inf`, `-inf` and `NaN` (signed zero is
not distinguished).  Errors raised by the Python code are modelled as an
`Except` error value; the filesystem and the pandas library routines that
perform I/O (`read_csv`, `to_csv`, `sample`) are external collaborators and are
passed in as parameters.
-/

/-- A pandas cell value: a finite rational, an infinity, or NaN. -/
inductive PVal where
  | finite (q : ℚ)
  | posInf
  | negInf
  | nan
deriving DecidableEq, Repr

/-- Elementwise addition of pandas values (IEEE semantics on the specials). -/
def pvAdd : PVal → PVal → PVal
  | .nan, _ => .nan
  | _, .nan => .nan
  | .posInf, .negInf => .nan
  | .negInf, .posInf => .nan
  | .posInf, _ => .posInf
  | _, .posInf => .posInf
  | .negInf, _ => .negInf
  | _, .negInf => .negInf
  | .finite a, .finite b => .finite (a + b)

/-- Elementwise division of pandas values (IEEE semantics: `x/0` is a signed
infinity for `x ≠ 0` and NaN for `x = 0`; pandas does not raise on it). -/
def pvDiv : PVal → PVal → PVal
  | .nan, _ => .nan
  | _, .nan => .nan
  | .posInf, .posInf => .nan
  | .posInf, .negInf => .nan
  | .negInf, .posInf => .nan
  | .negInf, .negInf => .nan
  | .posInf, .finite b => if b < 0 then .negInf else .posInf
  | .negInf, .finite b => if b < 0 then .posInf else .negInf
  | .finite _, .posInf => .finite 0
  | .finite _, .negInf => .finite 0
  | .finite a, .finite b =>
      if b = 0 then (if a = 0 then .nan else if 0 < a then .posInf else .negInf)
      else .finite (a / b)

/-- A pandas DataFrame: an insertion-ordered mapping from column name to a
column of values (pandas column assignment replaces an existing column in
place or appends a new one at the end, like a Python dict). -/
abbrev Df := List (String × List PVal)

/-- Column read `data[k]`: the first column named `k`, if any (a missing
column is a Python `KeyError`, handled at each use site). -/
def getCol (df : Df) (k : String) : Option (List PVal) :=
  match df with
  | [] => none
  | (k2, v) :: rest => if k2 = k then some v else getCol rest k

/-- Column write `data[k] = v`: replace the column named `k` in place, or
append it at the end when absent (Python dict / pandas assignment semantics). -/
def setCol (df : Df) (k : String) (v : List PVal) : Df :=
  match df with
  | [] => [(k, v)]
  | (k2, w) :: rest => if k2 = k then (k, v) :: rest else (k2, w) :: setCol rest k v

/-- The exceptions the modelled code can raise. -/
inductive PyError where
  | keyError
  | attributeError
  | unboundLocalError
  | invalidCollector
  | notFittedError
  | other (msg : String)
deriving DecidableEq, Repr

/-- The source's `FeatureEngineeringPipeline._calculate_packet_rate`:
`data['Total_Packets'] = data['Spkts'] + data['Dpkts']`, then
`data['pps'] = data['Total_Packets'] / data['dur']`, returning `data['pps']`.
The caller's frame `data` is threaded explicitly, so the result carries both
the (mutated) table and the returned `pps` column. -/
def calculate_packet_rate (data : Df) : Except PyError (Df × List PVal) :=
  match getCol data "Spkts" with
  | none => .error .keyError
  | some s =>
    match getCol data "Dpkts" with
    | none => .error .keyError
    | some d =>
      let data1 := setCol data "Total_Packets" (List.zipWith pvAdd s d)
      match getCol data1 "Total_Packets" with
      | none => .error .keyError
      | some tp =>
        match getCol data1 "dur" with
        | none => .error .keyError
        | some du =>
          let data2 := setCol data1 "pps" (List.zipWith pvDiv tp du)
          match getCol data2 "pps" with
          | none => .error .keyError
          | some pps => .ok (data2, pps)

/-- A feature dictionary, as built by `create_features`: a Python dict from
feature name to a column of values — the same representation as `Df`. -/
abbrev Features := Df

/-- Python `dict.update`: for each key of the second dict in order, replace the
value under an existing key in place, or append the new key at the end.  This
is the feature-assembly operation of `create_features`
(`features.update(...)`); a colliding key is overwritten, no error is raised. -/
def dict_update (d e : Features) : Features :=
  e.foldl (fun acc kv => setCol acc kv.1 kv.2) d

/-- The source's `FeatureEngineeringPipeline._create_time_features`: builds
`{'packet_rate': self._calculate_packet_rate(data), 'burst_rate':
self._calculate_burst_rate(data), 'inter_arrival_time': self._calculate_iat(data)}`.
Python evaluates the dict entries in order: the packet-rate value is computed
first (mutating `data`), then the attribute lookup `self._calculate_burst_rate`
fails with `AttributeError` because no such method is defined on the class
(nor is `_calculate_iat`). -/
def create_time_features (data : Df) : Except PyError Features :=
  match calculate_packet_rate data with
  | .error e => .error e
  | .ok (_data1, _pps) => .error .attributeError

/-- The source's `FeatureEngineeringPipeline.create_features`: starts from the
empty dict, merges the time-based features via `dict.update`, then would merge
`self._create_statistical_features(raw_data)` and
`self._create_protocol_features(raw_data)` — both attribute lookups fail with
`AttributeError` because neither method is defined anywhere in the class.
Control never reaches the final `pd.DataFrame(features)`. -/
def create_features (raw_data : Df) : Except PyError Features :=
  match create_time_features raw_data with
  | .error e => .error e
  | .ok tf =>
    let _features := dict_update [] tf
    .error .attributeError

/-- The source's `FeatureEngineeringPipeline` instance state: the declared
transform-stage list and the dataset attributes set by `__load_dataset`.
A Python attribute not yet assigned is `none` (reading it raises
`AttributeError`). -/
structure FeatureEngineeringPipeline where
  transformers : List String
  testing_set : Option Df
  training_set : Option Df
  train_df : Option Df
deriving Repr

/-- The source's `FeatureEngineeringPipeline.__load_dataset`: reads the two
CSV datasets (`read_csv` is external I/O, passed in as the outcome of each
read), then executes `self.train_df = self.train_df.sample(frac=1,
random_state=42).reset_index(drop=True)` — the right-hand side reads
`self.train_df`, whose assigning statement is commented out, so the read
raises `AttributeError` whenever `train_df` was never assigned.  The pandas
`sample`/`reset_index` combination is external library code, passed in as
`sampleFn`. -/
def load_dataset (readTesting readTraining : Except PyError Df)
    (sampleFn : Df → Df) (self : FeatureEngineeringPipeline) :
    Except PyError FeatureEngineeringPipeline :=
  match readTesting with
  | .error e => .error e
  | .ok t =>
    match readTraining with
    | .error e => .error e
    | .ok tr =>
      let self1 := { self with testing_set := some t, training_set := some tr }
      match self1.train_df with
      | none => .error .attributeError
      | some d => .ok { self1 with train_df := some (sampleFn d) }

/-- The source's `FeatureEngineeringPipeline.__init__`: sets the
`transformers` stage list (scaler, pca, feature_selector) and then calls
`self.__load_dataset()` on a fresh instance, whose `train_df` attribute has
never been assigned. -/
def pipeline_init (readTesting readTraining : Except PyError Df)
    (sampleFn : Df → Df) : Except PyError FeatureEngineeringPipeline :=
  load_dataset readTesting readTraining sampleFn
    { transformers := ["scaler", "pca", "feature_selector"],
      testing_set := none, training_set := none, train_df := none }

/-- The collection types registered in `DataCollector.__init__`'s
`self.collectors` dispatch table. -/
def supported_types : List String := ["normal", "attack", "synthetic"]

/-- The source's `DataCollector._save_data`: attempts
`data.to_csv(save_path + '/' + collection_type + '_data.csv')`.  The
filesystem outcome is external; the model records the save operation that was
performed.  (A filesystem `IsADirectoryError` is caught and logged inside the
method, so it never propagates.) -/
def save_data (data : Df) (collection_type : String) :
    List (String × Df) × Option PyError :=
  ([(collection_type, data)], none)

/-- The source's `DataCollector.collect_data`: raises `Exception('Invalid
collector')` for a collection type outside the dispatch table; otherwise
awaits the underlying collector (external, passed in as `collector_impl`).
On collector success it falls through to `self._save_data(data,
collection_type)`.  On collector failure the exception is caught and only
logged, and control still falls through to the save call — where evaluating
the never-assigned local `data` raises `UnboundLocalError` before
`_save_data` runs.  The result is the list of save operations performed
paired with the exception surfaced to the caller, if any. -/
def collect_data (collector_impl : String → Nat → Except PyError Df)
    (collection_type : String) (duration : Nat) :
    List (String × Df) × Option PyError :=
  if collection_type ∈ supported_types then
    match collector_impl collection_type duration with
    | .ok data => save_data data collection_type
    | .error _e => ([], some .unboundLocalError)
  else ([], some .invalidCollector)

/-- Modelled from the spec: the Transform Chain's `fit`/`transform` methods are
not implemented in the source — `__init__` only declares the stage list
`[('scaler', StandardScaler()), ('pca', PCA(n_components=0.95)),
('feature_selector', SelectKBest(k=20))]`.  Per spec §4.5, the chain owns
optional fitted parameters (one fitted per-stage transformation each), created
only by `fit`; `transform` applies the already-fitted stages in order and
fails with `NotFittedError` if called before `fit`. -/
structure TransformChain where
  stages : List String
  fitted : Option (List (Features → Features))

/-- Modelled from the spec: the chain as declared at pipeline construction —
the three named stages, with no parameters fitted yet. -/
def initial_chain : TransformChain :=
  { stages := ["scaler", "pca", "feature_selector"], fitted := none }

/-- Modelled from the spec: `fit` learns the per-stage parameters (the learned
stage functions are supplied by the stages' fitting, abstracted here) and
stores them in the chain. -/
def TransformChain.fit (c : TransformChain)
    (learned : List (Features → Features)) : TransformChain :=
  { c with fitted := some learned }

/-- Modelled from the spec: `transform` applies all already-fitted stages in
declared order, and fails with `NotFittedError` when called before `fit`. -/
def TransformChain.transform (c : TransformChain) (ft : Features) :
    Except PyError Features :=
  match c.fitted with
  | none => .error .notFittedError
  | some fs => .ok (fs.foldl (fun acc f => f acc) ft)

/-- Lookup after a column write: the written column reads back as written,
every other name reads as before. -/
theorem getCol_setCol (df : Df) (k : String) (v : List PVal) (n : String) :
    getCol (setCol df k v) n = if k = n then some v else getCol df n := by
  induction df with
  | nil =>
    simp only [setCol, getCol]
  | cons hd rest ih =>
    obtain ⟨k2, w⟩ := hd
    by_cases hk : k2 = k
    · subst hk
      by_cases hn : k2 = n <;> simp [setCol, getCol, hn]
    · by_cases hn : k2 = n
      · subst hn
        have hkn : ¬k = k2 := fun h => hk h.symm
        simp [setCol, getCol, hk, hkn]
      · simp [setCol, getCol, hk, hn, ih]

/-- When the three input columns are present, `_calculate_packet_rate`
succeeds, writes the `Total_Packets` and `pps` columns into the caller's
table, and returns the elementwise quotient column. -/
theorem calculate_packet_rate_eq (df : Df) (s d u : List PVal)
    (hs : getCol df "Spkts" = some s) (hd : getCol df "Dpkts" = some d)
    (hu : getCol df "dur" = some u) :
    calculate_packet_rate df =
      .ok (setCol (setCol df "Total_Packets" (List.zipWith pvAdd s d)) "pps"
             (List.zipWith pvDiv (List.zipWith pvAdd s d) u),
           List.zipWith pvDiv (List.zipWith pvAdd s d) u) := by
  have htp_dur : ¬(("Total_Packets" : String) = "dur") := by decide
  simp [calculate_packet_rate, hs, hd, hu, getCol_setCol, htp_dur]

/-- A one-flow batch with Spkts = 10, Dpkts = 5, dur = 3. -/
def exDf1 : Df :=
  [("Spkts", [PVal.finite 10]), ("Dpkts", [PVal.finite 5]), ("dur", [PVal.finite 3])]

/-- Claim C1: for every flow record with duration > 0, the packet rate computed
by the time-based extractor equals
(source_packet_count + destination_packet_count) / duration exactly. -/
theorem packet_rate_exact (df : Df) (s d u : List PVal) (i : ℕ) (a b c : ℚ)
    (hs : getCol df "Spkts" = some s) (hd : getCol df "Dpkts" = some d)
    (hu : getCol df "dur" = some u)
    (ha : s.get? i = some (PVal.finite a)) (hb : d.get? i = some (PVal.finite b))
    (hc : u.get? i = some (PVal.finite c)) (hcpos : 0 < c) :
    ∃ data2 pps, calculate_packet_rate df = .ok (data2, pps) ∧
      pps.get? i = some (PVal.finite ((a + b) / c)) := by
  refine ⟨_, _, calculate_packet_rate_eq df s d u hs hd hu, ?_⟩
  have h1 : (List.zipWith pvAdd s d).get? i = some (PVal.finite (a + b)) := by
    rw [List.get?_zipWith_eq_some]
    exact ⟨_, _, ha, hb, rfl⟩
  rw [List.get?_zipWith_eq_some]
  refine ⟨_, _, h1, hc, ?_⟩
  simp [pvDiv, hcpos.ne']

/-- Concrete instance of the C1 theorem: the single flow (10, 5, 3) has packet
rate (10 + 5) / 3 = 5. -/
theorem packet_rate_exact_witness :
    getCol exDf1 "Spkts" = some [PVal.finite 10] ∧
    getCol exDf1 "Dpkts" = some [PVal.finite 5] ∧
    getCol exDf1 "dur" = some [PVal.finite 3] ∧
    [PVal.finite 10].get? 0 = some (PVal.finite 10) ∧
    [PVal.finite 5].get? 0 = some (PVal.finite 5) ∧
    [PVal.finite 3].get? 0 = some (PVal.finite 3) ∧
    (0 : ℚ) < 3 ∧
    ∃ data2 pps, calculate_packet_rate exDf1 = .ok (data2, pps) ∧
      pps.get? 0 = some (PVal.finite ((10 + 5) / 3)) :=
  ⟨by decide, by decide, by decide, rfl, rfl, rfl, by norm_num,
    packet_rate_exact exDf1 [PVal.finite 10] [PVal.finite 5] [PVal.finite 3]
      0 10 5 3 (by decide) (by decide) (by decide) rfl rfl rfl (by norm_num)⟩

/-- A two-flow batch carrying all the columns the extractor requires. -/
def exDf10 : Df :=
  [("Spkts", [PVal.finite 2, PVal.finite 3]),
   ("Dpkts", [PVal.finite 1, PVal.finite 1]),
   ("dur", [PVal.finite 1, PVal.finite 2])]

/-- Claim C10: for every input Flow Record Table (carrying the columns the
time-based extractor reads), create_features never returns normally: it always
raises AttributeError, the undefined-method lookups
(_calculate_burst_rate first, and _create_statistical_features /
_create_protocol_features behind it) being unresolvable on the class. -/
theorem create_features_always_attribute_error (df : Df) (s d u : List PVal)
    (hs : getCol df "Spkts" = some s) (hd : getCol df "Dpkts" = some d)
    (hu : getCol df "dur" = some u) :
    create_features df = .error PyError.attributeError := by
  have h := calculate_packet_rate_eq df s d u hs hd hu
  simp [create_features, create_time_features, h]

/-- Concrete instance of the C10 theorem: create_features on a well-formed
two-flow batch raises AttributeError. -/
theorem create_features_always_attribute_error_witness :
    getCol exDf10 "Spkts" = some [PVal.finite 2, PVal.finite 3] ∧
    getCol exDf10 "Dpkts" = some [PVal.finite 1, PVal.finite 1] ∧
    getCol exDf10 "dur" = some [PVal.finite 1, PVal.finite 2] ∧
    create_features exDf10 = .error PyError.attributeError :=
  ⟨by decide, by decide, by decide,
    create_features_always_attribute_error exDf10
      [PVal.finite 2, PVal.finite 3] [PVal.finite 1, PVal.finite 1]
      [PVal.finite 1, PVal.finite 2] (by decide) (by decide) (by decide)⟩

/-- A one-flow batch with Spkts = 4, Dpkts = 2, dur = 2. -/
def exDf2 : Df :=
  [("Spkts", [PVal.finite 4]), ("Dpkts", [PVal.finite 2]), ("dur", [PVal.finite 2])]

/-- Claim C2 (failing input): on a well-formed one-flow batch, create_features
does not return a feature table at all — it raises AttributeError — so no
output row count can equal the input row count. -/
theorem create_features_no_output_table :
    create_features exDf2 = .error PyError.attributeError := rfl

/-- The spec §8 scenario batch: three flows with
(source_packets, destination_packets, duration) = (10,5,3), (0,0,0), (100,50,10). -/
def exDf7 : Df :=
  [("Spkts", [PVal.finite 10, PVal.finite 0, PVal.finite 100]),
   ("Dpkts", [PVal.finite 5, PVal.finite 0, PVal.finite 50]),
   ("dur", [PVal.finite 3, PVal.finite 0, PVal.finite 10])]

/-- Claim C7: on the batch (10,5,3), (0,0,0), (100,50,10) the packet-rate
computation does not crash: it yields [5, NaN, 15], the record with
duration = 0 producing the per-record NaN sentinel (0/0 in pandas) rather
than aborting the batch. -/
theorem packet_rate_sentinel_batch :
    Except.map Prod.snd (calculate_packet_rate exDf7) =
      .ok [PVal.finite 5, PVal.nan, PVal.finite 15] := by
  have h := calculate_packet_rate_eq exDf7
      [PVal.finite 10, PVal.finite 0, PVal.finite 100]
      [PVal.finite 5, PVal.finite 0, PVal.finite 50]
      [PVal.finite 3, PVal.finite 0, PVal.finite 10]
      (by decide) (by decide) (by decide)
  rw [h]
  simp only [Except.map, List.zipWith, pvAdd, pvDiv]
  norm_num

/-- Claim C4 (amended): `_calculate_packet_rate` mutates the caller's table —
it writes the `Total_Packets` and `pps` columns into it — but leaves every
other column unchanged. -/
theorem calculate_packet_rate_frame (df df2 : Df) (pps : List PVal) (n : String)
    (h : calculate_packet_rate df = .ok (df2, pps))
    (h1 : n ≠ "Total_Packets") (h2 : n ≠ "pps") :
    getCol df2 n = getCol df n := by
  unfold calculate_packet_rate at h
  cases hs : getCol df "Spkts" with
  | none => rw [hs] at h; exact absurd h (by simp)
  | some s =>
    rw [hs] at h
    cases hd : getCol df "Dpkts" with
    | none => rw [hd] at h; exact absurd h (by simp)
    | some d =>
      rw [hd] at h
      simp only at h
      cases htp : getCol (setCol df "Total_Packets" (List.zipWith pvAdd s d))
          "Total_Packets" with
      | none => rw [htp] at h; exact absurd h (by simp)
      | some tp =>
        rw [htp] at h
        cases hdu : getCol (setCol df "Total_Packets" (List.zipWith pvAdd s d))
            "dur" with
        | none => rw [hdu] at h; exact absurd h (by simp)
        | some du =>
          rw [hdu] at h
          simp only at h
          cases hpp : getCol (setCol (setCol df "Total_Packets"
              (List.zipWith pvAdd s d)) "pps" (List.zipWith pvDiv tp du))
              "pps" with
          | none => rw [hpp] at h; exact absurd h (by simp)
          | some ppsv =>
            rw [hpp] at h
            simp only [Except.ok.injEq, Prod.mk.injEq] at h
            obtain ⟨hdf2, -⟩ := h
            rw [← hdf2, getCol_setCol, if_neg (fun hh => h2 hh.symm),
              getCol_setCol, if_neg (fun hh => h1 hh.symm)]

/-- A one-flow batch with Spkts = 1, Dpkts = 2, dur = 4, for the C4 witness. -/
def exDf4 : Df :=
  [("Spkts", [PVal.finite 1]), ("Dpkts", [PVal.finite 2]), ("dur", [PVal.finite 4])]

/-- The Total_Packets column the extractor writes into `exDf4`. -/
def exTp4 : List PVal := List.zipWith pvAdd [PVal.finite 1] [PVal.finite 2]

/-- The pps column the extractor writes into `exDf4` and returns. -/
def exPps4 : List PVal := List.zipWith pvDiv exTp4 [PVal.finite 4]

/-- The state of the caller's table after `_calculate_packet_rate` ran on
`exDf4`: the original three columns plus `Total_Packets` and `pps`. -/
def exDf4r : Df := setCol (setCol exDf4 "Total_Packets" exTp4) "pps" exPps4

/-- Concrete instance of the C4 amended theorem: on the one-flow batch
(1, 2, 4), the column `Spkts` is unchanged by the packet-rate computation. -/
theorem calculate_packet_rate_frame_witness :
    calculate_packet_rate exDf4 = .ok (exDf4r, exPps4) ∧
    "Spkts" ≠ "Total_Packets" ∧ "Spkts" ≠ "pps" ∧
    getCol exDf4r "Spkts" = getCol exDf4 "Spkts" := by
  have h : calculate_packet_rate exDf4 = .ok (exDf4r, exPps4) :=
    calculate_packet_rate_eq exDf4 [PVal.finite 1] [PVal.finite 2] [PVal.finite 4]
      (by decide) (by decide) (by decide)
  exact ⟨h, by decide, by decide,
    calculate_packet_rate_frame exDf4 exDf4r exPps4 "Spkts" h
      (by decide) (by decide)⟩

/-- A one-flow batch with Spkts = 7, Dpkts = 1, dur = 2, for the C4
counterexample. -/
def exDf4c : Df :=
  [("Spkts", [PVal.finite 7]), ("Dpkts", [PVal.finite 1]), ("dur", [PVal.finite 2])]

/-- Counterexample to claim C4 as stated: after the packet-rate computation
the caller's table is not unchanged — on the concrete batch `exDf4c` the
table coming out of `_calculate_packet_rate` differs from the one passed in
(it gained a `pps` column, among others). -/
theorem calculate_packet_rate_mutates_input :
    Except.map Prod.fst (calculate_packet_rate exDf4c) ≠ Except.ok exDf4c := by
  have h := calculate_packet_rate_eq exDf4c
      [PVal.finite 7] [PVal.finite 1] [PVal.finite 2]
      (by decide) (by decide) (by decide)
  rw [h]
  intro hcontra
  simp only [Except.map, Except.ok.injEq] at hcontra
  have h3 := congrArg (fun t => getCol t "pps") hcontra
  simp only [getCol_setCol, if_pos rfl] at h3
  simp [exDf4c, getCol] at h3

/-- Claim C8 (amended): when a later extractor output carries a feature name
the assembled dict already holds, the `dict.update` assembly silently
overwrites the earlier column with the later one; no SchemaConflictError
exists in the code and no error is raised. -/
theorem assemble_collision_overwrites (d : Features) (k : String) (w : List PVal) :
    getCol (dict_update d [(k, w)]) k = some w := by
  simp [dict_update, getCol_setCol]

/-- Counterexample to claim C8 as stated: merging two extractor outputs that
both emit `packet_rate` with differing values does not fail at all — the
assembly is a total dict update and returns the second extractor's column in
place of the first. -/
theorem assemble_collision_overwrites_concrete :
    dict_update [("packet_rate", [PVal.finite 5])] [("packet_rate", [PVal.finite 7])]
      = [("packet_rate", [PVal.finite 7])] := by decide

/-- Claim C9: constructing a FeatureEngineeringPipeline never succeeds:
whatever the dataset reads and the library shuffle do, `__init__` returns no
instance, and whenever the two CSV reads succeed the failure is the
AttributeError from `__load_dataset` reading the never-assigned
`self.train_df`. -/
theorem pipeline_init_never_succeeds (r1 r2 : Except PyError Df)
    (sampleFn : Df → Df) (t tr : Df) :
    (pipeline_init r1 r2 sampleFn).isOk = false ∧
    pipeline_init (.ok t) (.ok tr) sampleFn = .error PyError.attributeError := by
  constructor
  · cases r1 <;> cases r2 <;> rfl
  · rfl

/-- Claim C3 (failing input): when the underlying collector raises, the
caught exception is only logged; control falls through to the save call,
where the unassigned local `data` raises UnboundLocalError — no save is
recorded, and the caller sees UnboundLocalError instead of the collection
failure. -/
theorem collect_data_failure_unbound_local :
    collect_data (fun _ _ => .error (.other "capture failed")) "normal" 5
      = ([], some PyError.unboundLocalError) := rfl

/-- Claim C5: for every collection_type outside the dispatch table,
collect_data raises the invalid-collector error and performs no save. -/
theorem collect_data_invalid_type
    (collector_impl : String → Nat → Except PyError Df)
    (collection_type : String) (duration : Nat)
    (h : collection_type ∉ supported_types) :
    collect_data collector_impl collection_type duration
      = ([], some PyError.invalidCollector) := by
  simp [collect_data, h]

/-- Concrete instance of the C5 theorem: requesting collection type `bogus`
raises the invalid-collector error and performs no save. -/
theorem collect_data_invalid_type_witness :
    "bogus" ∉ supported_types ∧
    collect_data (fun _ _ => .ok []) "bogus" 7
      = ([], some PyError.invalidCollector) :=
  ⟨by decide, collect_data_invalid_type (fun _ _ => .ok []) "bogus" 7 (by decide)⟩

/-- Claim C6: calling the transform chain's transform before fit has been
called fails with NotFittedError, for every feature table argument. -/
theorem transform_before_fit_not_fitted (ft : Features) :
    initial_chain.transform ft = .error PyError.notFittedError := rfl
